import Mathlib

set_option maxRecDepth 2000
set_option maxHeartbeats 1000000

/-!
Shallow embedding of `src/live_banknifty.py` (single-position options trading
decision engine).  Pure decision logic is translated directly: pandas rolling
means become explicit window sums over rational close prices, the pandas
DataFrame after `dropna` becomes a list of fully annotated snapshot rows, and
the module-level strategy parameters become rational / integer constants.

External effects are passed in as data:
* downloaded market bars arrive as an `Except` (error = download failure),
* the options chain provider is an `Except Unit OptionsData`
  (error = any exception inside the entry `try` block),
* the persisted state file is a `StateFile` (missing / empty / invalid JSON /
  parsed JSON value), and writing the file is modelled by returning the JSON
  value that `json.dump` would serialize, or the raised `TypeError`.

Python dynamic values appearing in the JSON state file are embedded as the
inductive `PyVal`; `datetime.datetime` and `pd.Timestamp` objects are kept
distinct (constructor `PyDate`) because `save_state` converts only
`pd.Timestamp` fields to strings.  Calendar timestamps are represented by an
absolute day index plus minutes past midnight; a `YYYY-MM-DD` string of the
source corresponds to the day index with zero minutes (the embedding works at
day/minute granularity, which is the granularity the 15-minute-bar strategy
actually uses).  Floating point is modelled by exact rationals, and Python's
`round` (banker's rounding, half to even) is modelled exactly on rationals.
-/

/-! ## Strategy parameters (module-level constants of the source) -/

def capital : ℚ := 100000

def lot_size : ℚ := 15

def brokerage_per_leg : ℚ := 20

def short_ma_period : ℕ := 20

def long_ma_period : ℕ := 80

def vix_filter_threshold : ℚ := 20

def allocation_calm : ℚ := 1

def allocation_fear : ℚ := 1/2

def sell_strike_moneyness : ℚ := 98/100

def spread_width_pct : ℚ := 1/100

def max_dte : ℤ := 7

/-- Declared in the source but never read (see the design notes of the spec). -/
def profit_target_pct : ℚ := 80/100

/-- Declared in the source but never read. -/
def stop_loss_pct : ℚ := 150/100

/-! ## Timestamps and Python dynamic values -/

/-- A calendar timestamp: absolute day index plus minutes past midnight.
Well-formed timestamps have `mins < 1440`. -/
structure Timestamp where
  day : ℤ
  mins : ℕ
deriving DecidableEq, Repr

/-- `t.date()` in Python: the calendar day of a timestamp. -/
def dateOf (t : Timestamp) : ℤ := t.day

/-- A Python datetime-like object.  `pd.Timestamp` and plain
`datetime.datetime` are distinguished because `save_state` tests
`isinstance(x, pd.Timestamp)`. -/
inductive PyDate where
  | timestamp (t : Timestamp)
  | pydatetime (t : Timestamp)
deriving DecidableEq, Repr

/-- `.date()` of either datetime-like object. -/
def PyDate.dateOf : PyDate → ℤ
  | .timestamp t => t.day
  | .pydatetime t => t.day

/-- A dynamic Python value as it occurs in the JSON state file and in the
in-memory state dict.  JSON booleans are omitted (no claim concerns them). -/
inductive PyVal where
  | none_
  | num (q : ℚ)
  | str (s : String)
  | pydate (d : PyDate)
  | list (xs : List PyVal)
  | dict (fields : List (String × PyVal))

/-- Python truthiness of the values above (`if holdings:`). -/
def pyTruthy : PyVal → Bool
  | .none_ => false
  | .num q => if q = 0 then false else true
  | .str s => if s = "" then false else true
  | .pydate _ => true
  | .list xs => !xs.isEmpty
  | .dict fs => !fs.isEmpty

/-- `isinstance(x, dict)`. -/
def isDictVal : PyVal → Bool
  | .dict _ => true
  | _ => false

/-- `d.get(k)`: first binding of the key, `None`-as-`none` when absent. -/
def dictGet (fs : List (String × PyVal)) (k : String) : Option PyVal :=
  (fs.find? (fun p => p.1 == k)).map (fun p => p.2)

mutual
/-- Whether `json.dump` accepts the value (datetime-like objects raise
`TypeError`). -/
def jsonSerializable : PyVal → Bool
  | .none_ => true
  | .num _ => true
  | .str _ => true
  | .pydate _ => false
  | .list xs => jsonSerializableList xs
  | .dict fs => jsonSerializableFields fs

def jsonSerializableList : List PyVal → Bool
  | [] => true
  | v :: vs => jsonSerializable v && jsonSerializableList vs

def jsonSerializableFields : List (String × PyVal) → Bool
  | [] => true
  | f :: fs => jsonSerializable f.2 && jsonSerializableFields fs
end

/-- `t.isoformat()`, at the embedding's day/minute granularity. -/
def isoformat (t : Timestamp) : String :=
  toString t.day ++ "T" ++ toString t.mins

/-- Parse the string form produced by `isoformat` back into a timestamp
(the embedding of datetime-string parsing). -/
def parseTs (s : String) : Option Timestamp :=
  match s.splitOn "T" with
  | [d, m] =>
    match d.toInt?, m.toNat? with
    | some dd, some mm => some ⟨dd, mm⟩
    | _, _ => none
  | _ => none

/-- `pd.to_datetime` on a dynamic value: strings are parsed, datetime-like
objects pass through, everything else raises (numeric epoch input is outside
the model's granularity; no claim feeds numbers here). -/
def to_datetime : PyVal → Option Timestamp
  | .str s => parseTs s
  | .pydate (.timestamp t) => some t
  | .pydate (.pydatetime t) => some t
  | _ => none

/-! ## Market data model -/

/-- One downloaded bar after timezone normalization and the merge with the
forward-filled daily VIX series (only the fields the decision logic reads). -/
structure Bar where
  ts : Timestamp
  close : ℚ
  vix_close : ℚ
deriving DecidableEq, Repr

/-- A row of the DataFrame after both rolling means are attached and
`dropna` removed the rows with undefined moving averages. -/
structure SnapRow where
  ts : Timestamp
  close : ℚ
  vix_close : ℚ
  short_ma : ℚ
  long_ma : ℚ
deriving DecidableEq, Repr

/-- `rolling(window=w).mean()` at row `i`: defined once `w` observations
exist, i.e. when `w ≤ i + 1`. -/
def smaAt (closes : List ℚ) (w i : ℕ) : Option ℚ :=
  if w ≤ i + 1 then
    some ((((closes.drop (i + 1 - w)).take w).foldl (· + ·) 0) / (w : ℚ))
  else none

/-- The snapshot: every bar annotated with both moving averages, rows where
either average is undefined dropped (`dropna`). -/
def buildSnapshot (bars : List Bar) : List SnapRow :=
  let closes := bars.map (fun b => b.close)
  (List.range bars.length).filterMap fun i =>
    match bars[i]?, smaAt closes short_ma_period i, smaAt closes long_ma_period i with
    | some b, some s, some l => some ⟨b.ts, b.close, b.vix_close, s, l⟩
    | _, _, _ => none

/-! ## Signal Detector (lines 134-149 of the source) -/

/-- `previously_below` at row `i`: `short_ma.shift(1) <= long_ma.shift(1)`.
The shifted value at the first row is NaN and the pandas comparison with NaN
is `False`. -/
def prevBelow (snap : List SnapRow) : ℕ → Bool
  | 0 => false
  | j + 1 =>
    match snap[j]? with
    | some p => decide (p.short_ma ≤ p.long_ma)
    | none => false

/-- Row `i` is a crossover row: `currently_above & previously_below`. -/
def isCrossoverAt (snap : List SnapRow) (i : ℕ) : Bool :=
  (match snap[i]? with
   | some r => decide (r.long_ma < r.short_ma)
   | none => false) && prevBelow snap i

/-- Indices of `crossover_signals` (the rows where both conditions hold). -/
def crossoverIdx (snap : List SnapRow) : List ℕ :=
  (List.range snap.length).filter (fun i => isCrossoverAt snap i)

/-- `not crossover_signals.empty and crossover_signals.index[-1] == today`,
where `today = underlying_df.index[-1]`. -/
def signalFires (snap : List SnapRow) : Bool :=
  match (crossoverIdx snap).getLast? with
  | none => false
  | some i =>
    match snap[i]?, snap.getLast? with
    | some r, some last => decide (r.ts = last.ts)
    | _, _ => false

/-- `underlying_df.loc[today]` used as a single row: defined when exactly one
row carries the label (with duplicate labels the downstream `int(...)` of a
Series raises inside the entry `try`, i.e. entry is abandoned). -/
def locUnique (snap : List SnapRow) (t : Timestamp) : Option SnapRow :=
  match snap.filter (fun r => decide (r.ts = t)) with
  | [r] => some r
  | _ => none

/-! ## Spread Selector and Position Sizer (lines 154-177) -/

/-- Python `round` on an exact rational: round half to even.
(`Rat.floor` is the computable floor, equal to `⌊x⌋`.) -/
def pyRound (x : ℚ) : ℤ :=
  if x - (x.floor : ℚ) < 1/2 then x.floor
  else if 1/2 < x - (x.floor : ℚ) then x.floor + 1
  else if x.floor % 2 = 0 then x.floor else x.floor + 1

/-- `int(round(current_price * sell_strike_moneyness / 100) * 100)`. -/
def sellStrikeOf (price : ℚ) : ℤ :=
  pyRound (price * sell_strike_moneyness / 100) * 100

/-- `int(round(sell_strike * (1 - spread_width_pct) / 100) * 100)`. -/
def buyStrikeOf (sell_strike : ℤ) : ℤ :=
  pyRound ((sell_strike : ℚ) * (1 - spread_width_pct) / 100) * 100

/-- `allocation_calm if vix_level < vix_filter_threshold else allocation_fear`. -/
def position_multiplier (vix_level : ℚ) : ℚ :=
  if vix_level < vix_filter_threshold then allocation_calm else allocation_fear

/-- `(dt.datetime.strptime(exp, '%Y-%m-%d') - today).days`: the expiry string
denotes midnight of its day; `timedelta.days` floors the signed difference. -/
def tdeltaDays (expiryDay : ℤ) (today : Timestamp) : ℤ :=
  Int.fdiv (expiryDay * 1440 - (today.day * 1440 + (today.mins : ℤ))) 1440

/-- The `valid_expiries` list comprehension (expiries encoded by day index). -/
def validExpiries (avail : List ℤ) (today : Timestamp) : List ℤ :=
  avail.filter (fun e =>
    decide (0 ≤ tdeltaDays e today) && decide (tdeltaDays e today ≤ max_dte))

/-- One row of the put chain (only the columns the source reads). -/
structure OptionQuote where
  strike : ℚ
  lastPrice : ℚ
deriving DecidableEq, Repr

/-- The option-chain provider: the ticker's available expiries and a put
chain per expiry. -/
structure OptionsData where
  expiries : List ℤ
  chain : ℤ → List OptionQuote

/-! ## Portfolio state, load_state, save_state -/

/-- The in-memory holdings dict created by `load_state` or by the entry
transition.  Date fields are datetime-like objects; the remaining fields keep
whatever dynamic value they had (their types are never validated). -/
structure Holdings where
  entry_date : PyDate
  expiry : PyDate
  sell_strike : PyVal
  buy_strike : PyVal
  credit_received : PyVal

/-- The in-memory portfolio state dict. -/
structure Portfolio where
  cash : ℚ
  holdings : Option Holdings

/-- `{'cash': 100000.0, 'holdings': None}`. -/
def default_state : Portfolio := ⟨100000, none⟩

/-- The required holdings keys checked by `load_state`. -/
def required_keys : List String :=
  ["entry_date", "expiry", "sell_strike", "buy_strike", "credit_received"]

/-- The persisted state file as seen by `load_state`. -/
inductive StateFile where
  | missing
  | emptyFile
  | invalid
  | content (j : PyVal)

/-- `holdings` has all five required keys. -/
def hasAllKeys : PyVal → Bool
  | .dict hf => required_keys.all (fun k => (dictGet hf k).isSome)
  | _ => false

/-- Field access on a validated holdings dict. -/
def fieldOf (v : PyVal) (k : String) : PyVal :=
  match v with
  | .dict hf => (dictGet hf k).getD .none_
  | _ => .none_

/-- The body of `load_state`'s `try` block for a parsed top-level dict:
a truthy holdings dict with all five required keys has its two date fields
converted by `pd.to_datetime` (an unparseable date raises, yielding the
default state); any other holdings value is discarded, with a warning if it
was not `None`; cash is kept only when it is a number. -/
def load_state_dict (fields : List (String × PyVal)) : Portfolio × List String :=
  let hval := (dictGet fields "holdings").getD .none_
  let cashVal : ℚ :=
    match dictGet fields "cash" with
    | some (.num q) => q
    | _ => 100000
  if pyTruthy hval && isDictVal hval && hasAllKeys hval then
    match to_datetime (fieldOf hval "entry_date"),
          to_datetime (fieldOf hval "expiry") with
    | some ed, some ex =>
      (⟨cashVal, some ⟨.timestamp ed, .timestamp ex,
          fieldOf hval "sell_strike", fieldOf hval "buy_strike",
          fieldOf hval "credit_received"⟩⟩, [])
    | _, _ => (default_state, ["Error loading state file"])
  else
    match hval with
    | .none_ => (⟨cashVal, none⟩, [])
    | _ => (⟨cashVal, none⟩,
        ["Warning: Incomplete holdings data found. Resetting."])

/-- `load_state` (lines 38-61).  Returns the portfolio together with the
list of warning/error messages printed.  A missing or empty file yields the
default; invalid JSON or any exception inside the `try` (including a
non-dict top-level value) yields the default. -/
def load_state : StateFile → Portfolio × List String
  | .missing => (default_state, [])
  | .emptyFile => (default_state, [])
  | .invalid => (default_state, ["Error loading state file"])
  | .content (.dict fields) => load_state_dict fields
  | .content _ => (default_state, ["Error loading state file"])

/-- `save_state`'s conversion of a date field: only `pd.Timestamp` instances
are replaced by their isoformat string; a plain `datetime.datetime` is left
in the dict unchanged. -/
def serializeDateField : PyDate → PyVal
  | .timestamp t => .str (isoformat t)
  | .pydatetime t => .pydate (.pydatetime t)

/-- The holdings dict as prepared by `save_state` before `json.dump`. -/
def holdingsDict (h : Holdings) : PyVal :=
  .dict [("entry_date", serializeDateField h.entry_date),
         ("expiry", serializeDateField h.expiry),
         ("sell_strike", h.sell_strike),
         ("buy_strike", h.buy_strike),
         ("credit_received", h.credit_received)]

/-- `save_state` (lines 63-75): the JSON value written, or the `TypeError`
raised by `json.dump` when a non-serializable value remains in the dict. -/
def save_state (p : Portfolio) : Except String PyVal :=
  let j : PyVal := .dict
    [("cash", .num p.cash),
     ("holdings", match p.holdings with
                  | none => .none_
                  | some h => holdingsDict h)]
  if jsonSerializable j then .ok j
  else .error "TypeError: Object of type datetime is not JSON serializable"

/-! ## The run (lines 88-209) -/

/-- The tail of the entry evaluation once both put rows were found
(lines 170-189): compute multiplier and scaled credit and, when the credit is
strictly positive, book the cash effect and create the holdings dict.  The
strikes were computed before the lookup and are stored in the position. -/
def entryWithQuotes (today : Timestamp) (latest : SnapRow) (target : ℤ)
    (sell_strike buy_strike : ℤ) (sq bq : OptionQuote) (cash : ℚ) :
    ℚ × Option Holdings :=
  if 0 < (sq.lastPrice - bq.lastPrice) * lot_size *
      position_multiplier latest.vix_close then
    (cash + ((sq.lastPrice - bq.lastPrice) * lot_size *
          position_multiplier latest.vix_close
        - 2 * brokerage_per_leg * position_multiplier latest.vix_close),
     some ⟨.timestamp today, .pydatetime ⟨target, 0⟩,
       .num ((sell_strike : ℤ) : ℚ), .num ((buy_strike : ℤ) : ℚ),
       .num ((sq.lastPrice - bq.lastPrice) * lot_size *
         position_multiplier latest.vix_close)⟩)
  else (cash, none)

/-- The entry evaluation once a target expiry was chosen (lines 160-189):
derive both strikes, look each up in the put chain by exact match
(`.iloc[0]` takes the first matching row), and proceed only when both exist. -/
def entryWithTarget (today : Timestamp) (latest : SnapRow) (od : OptionsData)
    (target : ℤ) (cash : ℚ) : ℚ × Option Holdings :=
  match ((od.chain target).filter
          (fun q => decide (q.strike = ((sellStrikeOf latest.close : ℤ) : ℚ)))).head?,
        ((od.chain target).filter
          (fun q => decide (q.strike =
            ((buyStrikeOf (sellStrikeOf latest.close) : ℤ) : ℚ)))).head? with
  | some sq, some bq =>
    entryWithQuotes today latest target (sellStrikeOf latest.close)
      (buyStrikeOf (sellStrikeOf latest.close)) sq bq cash
  | _, _ => (cash, none)

/-- The entry evaluation inside the `try` of the signal branch
(lines 153-191).  Any provider failure is caught and leaves the state
unchanged; every rejection (no qualifying expiry, missing strikes,
non-positive credit) is a silent no-op. -/
def entryEval (today : Timestamp) (latest : SnapRow)
    (options : Except Unit OptionsData) (cash : ℚ) : ℚ × Option Holdings :=
  match options with
  | .error _ => (cash, none)
  | .ok od =>
    match (validExpiries od.expiries today).min? with
    | none => (cash, none)
    | some target => entryWithTarget today latest od target cash

/-- The `if not holdings:` branch (lines 134-191): crossover detection and,
on a fresh signal, the entry evaluation. -/
def flatStep (snap : List SnapRow) (today : Timestamp)
    (options : Except Unit OptionsData) (cash : ℚ) : ℚ × Option Holdings :=
  if signalFires snap then
    match locUnique snap today with
    | some latest => entryEval today latest options cash
    | none => (cash, none)
  else (cash, none)

/-- The `if holdings:` expiry-exit step (lines 126-132).  Runs outside any
`try`: a non-numeric `credit_received` raises an uncaught `TypeError`. -/
def exitStep (today : Timestamp) (cash : ℚ) :
    Option Holdings → Except String (ℚ × Option Holdings)
  | none => .ok (cash, none)
  | some h =>
    if h.expiry.dateOf ≤ dateOf today then
      match h.credit_received with
      | .num c => .ok (cash + (c - 2 * brokerage_per_leg), none)
      | _ => .error "TypeError: unsupported operand type for subtraction"
    else .ok (cash, some h)

/-- Result of the run up to (but excluding) the final `save_state`. -/
inductive CoreResult where
  | fetchFail
  | crash (msg : String)
  | ok (p : Portfolio)

/-- The run from the exit step onward, once the snapshot is non-empty and
`today` is the latest bar's timestamp (lines 126-191). -/
def runAfterSnapshot (portfolio : Portfolio) (snap : List SnapRow)
    (lastRow : SnapRow) (options : Except Unit OptionsData) : CoreResult :=
  match exitStep lastRow.ts portfolio.cash portfolio.holdings with
  | .error m => .crash m
  | .ok (cash1, some h) => .ok ⟨cash1, some h⟩
  | .ok (cash1, none) =>
    match flatStep snap lastRow.ts options cash1 with
    | (cash2, h2) => .ok ⟨cash2, h2⟩

/-- The run from `load_state` up to the final `save_state` (lines 88-191).
An empty download raises inside the fetch `try` and is caught (early
`return`); an empty snapshot after `dropna` makes `underlying_df.index[-1]`
raise an uncaught `IndexError`. -/
def runCore (file : StateFile) (market : Except String (List Bar))
    (options : Except Unit OptionsData) : CoreResult :=
  match market with
  | .error _ => .fetchFail
  | .ok bars =>
    if bars.isEmpty then .fetchFail
    else
      match (buildSnapshot bars).getLast? with
      | none => .crash "IndexError: index -1 is out of bounds for axis 0 with size 0"
      | some lastRow =>
        runAfterSnapshot (load_state file).1 (buildSnapshot bars) lastRow options

/-! ## Step lemmas for unfolding the run -/

lemma runCore_ok (file : StateFile) (bars : List Bar)
    (options : Except Unit OptionsData) (lastRow : SnapRow)
    (hne : bars.isEmpty = false)
    (hlast : (buildSnapshot bars).getLast? = some lastRow) :
    runCore file (.ok bars) options =
      runAfterSnapshot (load_state file).1 (buildSnapshot bars) lastRow options := by
  have h1 : runCore file (.ok bars) options =
      (if bars.isEmpty = true then CoreResult.fetchFail
       else
        match (buildSnapshot bars).getLast? with
        | none =>
          CoreResult.crash "IndexError: index -1 is out of bounds for axis 0 with size 0"
        | some lastRow =>
          runAfterSnapshot (load_state file).1 (buildSnapshot bars) lastRow options) := rfl
  rw [h1, hne, hlast]
  rfl

lemma exitStep_expired (today : Timestamp) (cash : ℚ) (h : Holdings) (c : ℚ)
    (hc : h.credit_received = .num c) (he : h.expiry.dateOf ≤ dateOf today) :
    exitStep today cash (some h) =
      .ok (cash + (c - 2 * brokerage_per_leg), none) := by
  have h1 : exitStep today cash (some h) =
      (if h.expiry.dateOf ≤ dateOf today then
        match h.credit_received with
        | .num c => .ok (cash + (c - 2 * brokerage_per_leg), none)
        | _ => .error "TypeError: unsupported operand type for subtraction"
       else .ok (cash, some h)) := rfl
  rw [h1, if_pos he, hc]

lemma exitStep_live (today : Timestamp) (cash : ℚ) (h : Holdings)
    (he : ¬ h.expiry.dateOf ≤ dateOf today) :
    exitStep today cash (some h) = .ok (cash, some h) := by
  have h1 : exitStep today cash (some h) =
      (if h.expiry.dateOf ≤ dateOf today then
        match h.credit_received with
        | .num c => .ok (cash + (c - 2 * brokerage_per_leg), none)
        | _ => .error "TypeError: unsupported operand type for subtraction"
       else .ok (cash, some h)) := rfl
  rw [h1, if_neg he]

lemma runAfterSnapshot_flat (portfolio : Portfolio) (snap : List SnapRow)
    (lastRow : SnapRow) (options : Except Unit OptionsData)
    (hh : portfolio.holdings = none) :
    runAfterSnapshot portfolio snap lastRow options =
      .ok ⟨(flatStep snap lastRow.ts options portfolio.cash).1,
           (flatStep snap lastRow.ts options portfolio.cash).2⟩ := by
  unfold runAfterSnapshot
  rw [hh]
  rfl

lemma runAfterSnapshot_exit (portfolio : Portfolio) (snap : List SnapRow)
    (lastRow : SnapRow) (options : Except Unit OptionsData) (h : Holdings) (c : ℚ)
    (hh : portfolio.holdings = some h) (hc : h.credit_received = .num c)
    (he : h.expiry.dateOf ≤ dateOf lastRow.ts) :
    runAfterSnapshot portfolio snap lastRow options =
      .ok ⟨(flatStep snap lastRow.ts options
              (portfolio.cash + (c - 2 * brokerage_per_leg))).1,
           (flatStep snap lastRow.ts options
              (portfolio.cash + (c - 2 * brokerage_per_leg))).2⟩ := by
  unfold runAfterSnapshot
  rw [hh, exitStep_expired _ _ _ _ hc he]

lemma runAfterSnapshot_carry (portfolio : Portfolio) (snap : List SnapRow)
    (lastRow : SnapRow) (options : Except Unit OptionsData) (h : Holdings)
    (hh : portfolio.holdings = some h)
    (he : ¬ h.expiry.dateOf ≤ dateOf lastRow.ts) :
    runAfterSnapshot portfolio snap lastRow options =
      .ok ⟨portfolio.cash, some h⟩ := by
  unfold runAfterSnapshot
  rw [hh, exitStep_live _ _ _ he]

lemma flatStep_signal (snap : List SnapRow) (today : Timestamp)
    (options : Except Unit OptionsData) (cash : ℚ) (latest : SnapRow)
    (hsig : signalFires snap = true) (hloc : locUnique snap today = some latest) :
    flatStep snap today options cash = entryEval today latest options cash := by
  unfold flatStep
  rw [hsig, if_pos rfl, hloc]

lemma flatStep_noSignal (snap : List SnapRow) (today : Timestamp)
    (options : Except Unit OptionsData) (cash : ℚ)
    (hsig : signalFires snap = false) :
    flatStep snap today options cash = (cash, none) := by
  unfold flatStep
  rw [hsig]
  simp

lemma entryEval_target (today : Timestamp) (latest : SnapRow) (od : OptionsData)
    (cash : ℚ) (target : ℤ)
    (hmin : (validExpiries od.expiries today).min? = some target) :
    entryEval today latest (.ok od) cash =
      entryWithTarget today latest od target cash := by
  have h1 : entryEval today latest (.ok od) cash =
      (match (validExpiries od.expiries today).min? with
       | none => (cash, none)
       | some target => entryWithTarget today latest od target cash) := rfl
  rw [h1, hmin]

lemma entryEval_noExpiry (today : Timestamp) (latest : SnapRow) (od : OptionsData)
    (cash : ℚ) (hmin : (validExpiries od.expiries today).min? = none) :
    entryEval today latest (.ok od) cash = (cash, none) := by
  have h1 : entryEval today latest (.ok od) cash =
      (match (validExpiries od.expiries today).min? with
       | none => (cash, none)
       | some target => entryWithTarget today latest od target cash) := rfl
  rw [h1, hmin]

lemma entryWithTarget_found (today : Timestamp) (latest : SnapRow)
    (od : OptionsData) (target : ℤ) (cash : ℚ) (sq bq : OptionQuote)
    (hsell : ((od.chain target).filter
        (fun q => decide (q.strike = ((sellStrikeOf latest.close : ℤ) : ℚ)))).head?
      = some sq)
    (hbuy : ((od.chain target).filter
        (fun q => decide (q.strike =
          ((buyStrikeOf (sellStrikeOf latest.close) : ℤ) : ℚ)))).head? = some bq) :
    entryWithTarget today latest od target cash =
      entryWithQuotes today latest target (sellStrikeOf latest.close)
        (buyStrikeOf (sellStrikeOf latest.close)) sq bq cash := by
  unfold entryWithTarget
  rw [hsell, hbuy]

lemma entryWithQuotes_pos (today : Timestamp) (latest : SnapRow) (target : ℤ)
    (ss bs : ℤ) (sq bq : OptionQuote) (cash : ℚ)
    (hcredit : 0 < (sq.lastPrice - bq.lastPrice) * lot_size *
        position_multiplier latest.vix_close) :
    entryWithQuotes today latest target ss bs sq bq cash =
      (cash + ((sq.lastPrice - bq.lastPrice) * lot_size *
            position_multiplier latest.vix_close
          - 2 * brokerage_per_leg * position_multiplier latest.vix_close),
       some ⟨.timestamp today, .pydatetime ⟨target, 0⟩, .num ((ss : ℤ) : ℚ),
         .num ((bs : ℤ) : ℚ),
         .num ((sq.lastPrice - bq.lastPrice) * lot_size *
           position_multiplier latest.vix_close)⟩) := by
  unfold entryWithQuotes
  rw [if_pos hcredit]

lemma entryWithQuotes_nonpos (today : Timestamp) (latest : SnapRow) (target : ℤ)
    (ss bs : ℤ) (sq bq : OptionQuote) (cash : ℚ)
    (hcredit : ¬ 0 < (sq.lastPrice - bq.lastPrice) * lot_size *
        position_multiplier latest.vix_close) :
    entryWithQuotes today latest target ss bs sq bq cash = (cash, none) := by
  unfold entryWithQuotes
  rw [if_neg hcredit]

/-- Result of a whole run including persistence. -/
inductive RunResult where
  | fetchFail
  | crash (msg : String)
  | saveCrash (final : Portfolio) (msg : String)
  | done (final : Portfolio) (savedFile : PyVal)

/-- `run_live_options_trader`: the core followed by `save_state`.  A crash
before (or inside) the save leaves the previously persisted file unwritten. -/
def run_live_options_trader (file : StateFile) (market : Except String (List Bar))
    (options : Except Unit OptionsData) : RunResult :=
  match runCore file market options with
  | .fetchFail => .fetchFail
  | .crash m => .crash m
  | .ok p =>
    match save_state p with
    | .error m => .saveCrash p m
    | .ok j => .done p j

/-! ## Spec-side definition for the expiry-selection claim -/

/-- Modelled from the spec's glossary: days-to-expiry counted in calendar
days from the evaluation date to the expiry date. -/
def calendarDTE (expiryDay : ℤ) (today : Timestamp) : ℤ :=
  expiryDay - dateOf today

/-! ## Concrete inputs shared by counterexamples and witnesses -/

/-- A bar at midnight of the given day. -/
def mkBar (d : ℤ) (c v : ℚ) : Bar := ⟨⟨d, 0⟩, c, v⟩

/-- 80 flat bars at 100 followed by one bar at `lastClose`: the short moving
average crosses above the long one exactly at the final bar. -/
def calmBars (lastClose : ℚ) : List Bar :=
  ((List.range 80).map (fun i : ℕ => mkBar (i : ℤ) 100 15)) ++ [mkBar 80 lastClose 15]

/-- Chain matching the spec's end-to-end scenario (strikes 48000/47500). -/
def specOpts : OptionsData := ⟨[81], fun _ => [⟨48000, 120⟩, ⟨47500, 40⟩]⟩

/-- Chain matching the strikes derived from a last close of 10000. -/
def cexOpts : OptionsData := ⟨[81], fun _ => [⟨9800, 120⟩, ⟨9700, 40⟩]⟩

/-- A persisted state holding an open position that expires on day 79. -/
def expiredStateFile : StateFile :=
  .content (.dict [("cash", .num 100000),
    ("holdings", .dict [("entry_date", .str "70T0"), ("expiry", .str "79T0"),
      ("sell_strike", .num 9900), ("buy_strike", .num 9800),
      ("credit_received", .num 500)])])

/-- A persisted state holding an open position that expires on day 90. -/
def openStateFile : StateFile :=
  .content (.dict [("cash", .num 100000),
    ("holdings", .dict [("entry_date", .str "70T0"), ("expiry", .str "90T0"),
      ("sell_strike", .num 9900), ("buy_strike", .num 9800),
      ("credit_received", .num 500)])])

/-! ## Rounding lemmas -/

lemma Rat.floor_eq_intFloor (x : ℚ) : x.floor = ⌊x⌋ := by
  rw [Rat.floor_def', Rat.floor_def]

lemma pyRound_le_both (x : ℚ) :
    |(pyRound x : ℚ) - x| ≤ x - (⌊x⌋ : ℚ) ∧
    |(pyRound x : ℚ) - x| ≤ ((⌊x⌋ : ℚ) + 1) - x := by
  have hfl : (⌊x⌋ : ℚ) ≤ x := Int.floor_le x
  have hfu : x < (⌊x⌋ : ℚ) + 1 := Int.lt_floor_add_one x
  have habs1 : |((⌊x⌋ : ℤ) : ℚ) - x| = x - (⌊x⌋ : ℚ) := by
    rw [abs_sub_comm, abs_of_nonneg (by linarith)]
  have habs2 : |((⌊x⌋ + 1 : ℤ) : ℚ) - x| = ((⌊x⌋ : ℚ) + 1) - x := by
    push_cast
    rw [abs_of_nonneg (by linarith)]
  unfold pyRound
  rw [Rat.floor_eq_intFloor]
  split_ifs with h1 h2 h3
  · exact ⟨le_of_eq habs1, by rw [habs1]; all_goals linarith⟩
  · exact ⟨by rw [habs2]; all_goals linarith, le_of_eq habs2⟩
  · exact ⟨by rw [habs1]; all_goals linarith, by rw [habs1]; all_goals linarith⟩
  · exact ⟨by rw [habs2]; all_goals linarith, by rw [habs2]; all_goals linarith⟩

lemma pyRound_nearest (x : ℚ) (k : ℤ) :
    |(pyRound x : ℚ) - x| ≤ |(k : ℚ) - x| := by
  have hfl : (⌊x⌋ : ℚ) ≤ x := Int.floor_le x
  have hfu : x < (⌊x⌋ : ℚ) + 1 := Int.lt_floor_add_one x
  have hb := pyRound_le_both x
  rcases Int.le_or_lt k ⌊x⌋ with hk | hk
  · have hk2 : (k : ℚ) ≤ (⌊x⌋ : ℚ) := by exact_mod_cast hk
    calc |(pyRound x : ℚ) - x| ≤ x - (⌊x⌋ : ℚ) := hb.1
      _ ≤ -( (k : ℚ) - x) := by linarith
      _ ≤ |(k : ℚ) - x| := neg_le_abs _
  · have hk2 : (⌊x⌋ : ℚ) + 1 ≤ (k : ℚ) := by exact_mod_cast Int.add_one_le_iff.mpr hk
    calc |(pyRound x : ℚ) - x| ≤ ((⌊x⌋ : ℚ) + 1) - x := hb.2
      _ ≤ (k : ℚ) - x := by linarith
      _ ≤ |(k : ℚ) - x| := le_abs_self _

lemma pyRound_le_of_le (x : ℚ) (k : ℤ) (h : x ≤ (k : ℚ)) : pyRound x ≤ k := by
  have hfl : ⌊x⌋ ≤ k := by
    calc ⌊x⌋ ≤ ⌊(k : ℚ)⌋ := Int.floor_le_floor h
      _ = k := Int.floor_intCast k
  unfold pyRound
  rw [Rat.floor_eq_intFloor]
  split_ifs with h1 h2 h3
  · exact hfl
  · -- 1/2 < x - ⌊x⌋, so ⌊x⌋ + 1/2 < x ≤ k, hence ⌊x⌋ < k
    have : (⌊x⌋ : ℚ) < (k : ℚ) := by linarith
    have : ⌊x⌋ < k := by exact_mod_cast this
    omega
  · exact hfl
  · have : (⌊x⌋ : ℚ) < (k : ℚ) := by linarith
    have : ⌊x⌋ < k := by exact_mod_cast this
    omega

lemma pyRound_nonneg (x : ℚ) (h : 0 ≤ x) : 0 ≤ pyRound x := by
  have : (0 : ℤ) ≤ ⌊x⌋ := Int.floor_nonneg.mpr h
  unfold pyRound
  rw [Rat.floor_eq_intFloor]
  split_ifs <;> omega

lemma pyRound_eq_floor (x : ℚ) (f : ℤ) (hf : ⌊x⌋ = f) (h : x - (f : ℚ) < 1/2) :
    pyRound x = f := by
  unfold pyRound
  rw [Rat.floor_eq_intFloor, hf, if_pos h]

lemma pyRound_eq_ceil (x : ℚ) (f : ℤ) (hf : ⌊x⌋ = f) (h : 1/2 < x - (f : ℚ)) :
    pyRound x = f + 1 := by
  unfold pyRound
  rw [Rat.floor_eq_intFloor, hf, if_neg (by linarith), if_pos h]

lemma sellStrikeOf_49000 : sellStrikeOf 49000 = 48000 := by
  unfold sellStrikeOf
  rw [show (49000:ℚ) * sell_strike_moneyness / 100 = 4802/10 by
      norm_num [sell_strike_moneyness],
    pyRound_eq_floor _ 480 (Int.floor_eq_iff.mpr (by norm_num)) (by norm_num)]
  norm_num

lemma buyStrikeOf_48000 : buyStrikeOf 48000 = 47500 := by
  unfold buyStrikeOf
  rw [show ((48000:ℤ):ℚ) * (1 - spread_width_pct) / 100 = 4752/10 by
      norm_num [spread_width_pct],
    pyRound_eq_floor _ 475 (Int.floor_eq_iff.mpr (by norm_num)) (by norm_num)]
  norm_num

lemma sellStrikeOf_10000 : sellStrikeOf 10000 = 9800 := by
  unfold sellStrikeOf
  rw [show (10000:ℚ) * sell_strike_moneyness / 100 = 98 by
      norm_num [sell_strike_moneyness],
    pyRound_eq_floor _ 98 (Int.floor_eq_iff.mpr (by norm_num)) (by norm_num)]
  norm_num

lemma buyStrikeOf_9800 : buyStrikeOf 9800 = 9700 := by
  unfold buyStrikeOf
  rw [show ((9800:ℤ):ℚ) * (1 - spread_width_pct) / 100 = 9702/100 by
      norm_num [spread_width_pct],
    pyRound_eq_floor _ 97 (Int.floor_eq_iff.mpr (by norm_num)) (by norm_num)]
  norm_num

lemma position_multiplier_15 : position_multiplier 15 = 1 := by
  norm_num [position_multiplier, vix_filter_threshold, allocation_calm]

/-- C7: the Spread Selector's two strikes are exact multiples of 100, each is
a multiple of 100 at minimal distance from its unrounded value
(`price × moneyness` for the sell strike, `sell_strike × (1 − width)` for the
buy strike), and recomputing from identical inputs yields identical strikes. -/
theorem strike_rounding (price : ℚ) :
    sellStrikeOf price % 100 = 0 ∧
    buyStrikeOf (sellStrikeOf price) % 100 = 0 ∧
    (∀ k : ℤ, |((sellStrikeOf price : ℤ) : ℚ) - price * sell_strike_moneyness| ≤
       |((k : ℚ) * 100) - price * sell_strike_moneyness|) ∧
    (∀ k : ℤ, |((buyStrikeOf (sellStrikeOf price) : ℤ) : ℚ) -
         ((sellStrikeOf price : ℤ) : ℚ) * (1 - spread_width_pct)| ≤
       |((k : ℚ) * 100) - ((sellStrikeOf price : ℤ) : ℚ) * (1 - spread_width_pct)|) ∧
    (∀ price2 : ℚ, price2 = price →
       sellStrikeOf price2 = sellStrikeOf price ∧
       buyStrikeOf (sellStrikeOf price2) = buyStrikeOf (sellStrikeOf price)) := by
  have key : ∀ (y : ℚ) (k : ℤ),
      |((pyRound y * 100 : ℤ) : ℚ) - y * 100| ≤ |((k : ℚ) * 100) - y * 100| := by
    intro y k
    have h := pyRound_nearest y k
    have e1 : ((pyRound y * 100 : ℤ) : ℚ) - y * 100 = ((pyRound y : ℚ) - y) * 100 := by
      push_cast; ring
    have e2 : ((k : ℚ) * 100) - y * 100 = ((k : ℚ) - y) * 100 := by ring
    rw [e1, e2, abs_mul, abs_mul]
    have h100 : |(100 : ℚ)| = 100 := by norm_num
    rw [h100]
    exact mul_le_mul_of_nonneg_right h (by norm_num)
  refine ⟨Int.mul_emod_left _ _, Int.mul_emod_left _ _, ?_, ?_, ?_⟩
  · intro k
    have hy : price * sell_strike_moneyness =
        (price * sell_strike_moneyness / 100) * 100 := by ring
    rw [hy]
    exact key _ k
  · intro k
    have hy : ((sellStrikeOf price : ℤ) : ℚ) * (1 - spread_width_pct) =
        (((sellStrikeOf price : ℤ) : ℚ) * (1 - spread_width_pct) / 100) * 100 := by ring
    rw [hy]
    exact key _ k
  · intro price2 h
    exact ⟨by rw [h], by rw [h]⟩

/-- Witness for C7 at concrete inputs: re-deriving the strikes from the same
price yields the same values, here 48000 and 47500 from a price of 49000. -/
theorem strike_rounding_witness :
    sellStrikeOf 49000 = sellStrikeOf 49000 ∧
    buyStrikeOf (sellStrikeOf 49000) = buyStrikeOf (sellStrikeOf 49000) ∧
    sellStrikeOf 49000 = 48000 ∧ buyStrikeOf 48000 = 47500 :=
  ⟨((strike_rounding 49000).2.2.2.2 49000 rfl).1,
   ((strike_rounding 49000).2.2.2.2 49000 rfl).2,
   sellStrikeOf_49000, buyStrikeOf_48000⟩

/-- C8: the Position Sizer returns the calm multiplier exactly on readings
strictly below the threshold, the fear multiplier otherwise, and in
particular the fear multiplier at the threshold itself; it is total (always
one of the two multipliers). -/
theorem position_multiplier_boundary :
    (∀ v : ℚ, v < vix_filter_threshold → position_multiplier v = allocation_calm) ∧
    (∀ v : ℚ, vix_filter_threshold ≤ v → position_multiplier v = allocation_fear) ∧
    position_multiplier vix_filter_threshold = allocation_fear ∧
    (∀ v : ℚ, position_multiplier v = allocation_calm ∨
      position_multiplier v = allocation_fear) := by
  refine ⟨fun v h => if_pos h, fun v h => if_neg (not_lt.mpr h),
    if_neg (lt_irrefl _), fun v => ?_⟩
  unfold position_multiplier
  split_ifs
  · exact Or.inl rfl
  · exact Or.inr rfl

/-- Witness for C8: readings 19, 20 and 21 resolve to calm, fear, fear. -/
theorem position_multiplier_boundary_witness :
    position_multiplier 19 = allocation_calm ∧
    position_multiplier 20 = allocation_fear ∧
    position_multiplier 21 = allocation_fear :=
  ⟨position_multiplier_boundary.1 19 (by norm_num [vix_filter_threshold]),
   position_multiplier_boundary.2.1 20 (by norm_num [vix_filter_threshold]),
   position_multiplier_boundary.2.1 21 (by norm_num [vix_filter_threshold])⟩

/-! ## Expiry-selection lemmas (C5) -/

lemma tdeltaDays_eq (e : ℤ) (t : Timestamp) (h : t.mins < 1440) :
    tdeltaDays e t = if t.mins = 0 then e - t.day else e - t.day - 1 := by
  unfold tdeltaDays
  rw [Int.fdiv_eq_ediv _ (by norm_num : (0:ℤ) ≤ 1440)]
  rcases Nat.eq_zero_or_pos t.mins with h0 | h0
  · rw [if_pos h0, h0]
    have e1 : e * 1440 - (t.day * 1440 + ((0:ℕ) : ℤ)) = (e - t.day) * 1440 := by
      push_cast; ring
    rw [e1, Int.mul_ediv_cancel _ (by norm_num)]
  · rw [if_neg (by omega)]
    have e1 : e * 1440 - (t.day * 1440 + (t.mins : ℤ)) =
        (1440 - (t.mins : ℤ)) + (e - t.day - 1) * 1440 := by ring
    rw [e1, Int.add_mul_ediv_right _ _ (by norm_num : (1440:ℤ) ≠ 0),
      Int.ediv_eq_zero_of_lt (by omega) (by omega)]
    omega

/-- C5 counterexample: with the latest bar at 10:00 (600 minutes into day
100), an expiry on day 100 itself has calendar DTE 0 — inside the claimed
[0, max_dte] window — yet is rejected, while an expiry 8 calendar days out
(max_dte + 1) is accepted. -/
theorem dte_boundary_counterexample :
    calendarDTE 100 ⟨100, 600⟩ = 0 ∧ ((0:ℤ) ≤ 0 ∧ (0:ℤ) ≤ max_dte) ∧
    validExpiries [100] ⟨100, 600⟩ = [] ∧
    calendarDTE 108 ⟨100, 600⟩ = max_dte + 1 ∧
    validExpiries [108] ⟨100, 600⟩ = [108] := by
  refine ⟨rfl, ⟨le_refl 0, by norm_num [max_dte]⟩, ?_, ?_, ?_⟩ <;>
    with_unfolding_all decide

/-- C5 amended: the filter keeps the expiries whose floored timedelta-in-days
from the latest bar's timestamp lies in [0, max_dte].  At a midnight
timestamp this is the calendar-day window [today, today + max_dte]; at any
intraday timestamp it is [today + 1, today + max_dte + 1] — a same-day expiry
is excluded and an expiry max_dte + 1 calendar days out is included.  The
chosen expiry is the minimum of the qualifying list. -/
theorem valid_expiries_dte_window (t : Timestamp) (avail : List ℤ)
    (hm : t.mins < 1440) :
    (t.mins = 0 → validExpiries avail t =
        avail.filter (fun e => decide (t.day ≤ e) && decide (e ≤ t.day + max_dte))) ∧
    (0 < t.mins → validExpiries avail t =
        avail.filter (fun e =>
          decide (t.day + 1 ≤ e) && decide (e ≤ t.day + max_dte + 1))) ∧
    (∀ target, (validExpiries avail t).min? = some target →
        target ∈ validExpiries avail t ∧
        ∀ e ∈ validExpiries avail t, target ≤ e) := by
  refine ⟨?_, ?_, ?_⟩
  · intro h0
    apply List.filter_congr
    intro e he
    rw [tdeltaDays_eq e t hm, if_pos h0,
      show (decide (0 ≤ e - t.day) = decide (t.day ≤ e)) from
        decide_eq_decide.mpr (by omega),
      show (decide (e - t.day ≤ max_dte) = decide (e ≤ t.day + max_dte)) from
        decide_eq_decide.mpr (by omega)]
  · intro h0
    apply List.filter_congr
    intro e he
    rw [tdeltaDays_eq e t hm, if_neg (by omega),
      show (decide (0 ≤ e - t.day - 1) = decide (t.day + 1 ≤ e)) from
        decide_eq_decide.mpr (by omega),
      show (decide (e - t.day - 1 ≤ max_dte) = decide (e ≤ t.day + max_dte + 1)) from
        decide_eq_decide.mpr (by omega)]
  · intro target htarget
    refine ⟨List.min?_mem (fun a b => min_choice a b) htarget, ?_⟩
    intro e he
    exact (List.le_min?_iff (fun a b c => le_min_iff) htarget).1 le_rfl e he

/-- Witness for C5's amended theorem at an intraday timestamp: only the
expiries on days 101 through 108 qualify, and the minimum (101) is chosen. -/
theorem valid_expiries_dte_window_witness :
    validExpiries [99, 100, 101, 108, 109] ⟨100, 600⟩ = [101, 108] ∧
    (101 ∈ validExpiries [99, 100, 101, 108, 109] ⟨100, 600⟩ ∧
      ∀ e ∈ validExpiries [99, 100, 101, 108, 109] ⟨100, 600⟩, (101:ℤ) ≤ e) := by
  have h := valid_expiries_dte_window ⟨100, 600⟩ [99, 100, 101, 108, 109]
    (by norm_num)
  refine ⟨?_, h.2.2 101 (by with_unfolding_all decide)⟩
  rw [h.2.1 (by norm_num)]
  with_unfolding_all decide

/-! ## Empty-snapshot lemmas (C10) -/

lemma buildSnapshot_short (bars : List Bar) (hlen : bars.length < long_ma_period) :
    buildSnapshot bars = [] := by
  unfold buildSnapshot
  rw [List.filterMap_eq_nil_iff]
  intro i hi
  rw [List.mem_range] at hi
  have h80 : smaAt (bars.map (fun b => b.close)) long_ma_period i = none := by
    unfold smaAt
    rw [if_neg]
    omega
  rcases hb : bars[i]? with _ | b <;>
    rcases hs : smaAt (bars.map (fun b => b.close)) short_ma_period i with _ | s <;>
    simp [hb, hs, h80]

/-- C10: when the download is non-empty but holds fewer bars than the long
moving-average window, the snapshot is empty after truncation, and the run
crashes reading `underlying_df.index[-1]` — before any transition and before
the state file is written (no `saveCrash`/`done` outcome), regardless of the
persisted state and of the options provider. -/
theorem empty_snapshot_crashes (file : StateFile) (options : Except Unit OptionsData)
    (bars : List Bar) (hne : bars ≠ []) (hlen : bars.length < long_ma_period) :
    buildSnapshot bars = [] ∧
    run_live_options_trader file (.ok bars) options =
      .crash "IndexError: index -1 is out of bounds for axis 0 with size 0" := by
  have hempty := buildSnapshot_short bars hlen
  have hnotEmpty : bars.isEmpty = false := by
    cases bars
    · exact absurd rfl hne
    · rfl
  refine ⟨hempty, ?_⟩
  unfold run_live_options_trader runCore
  simp [hnotEmpty, hempty]

/-- Witness for C10: a 5-bar download crashes the run. -/
theorem empty_snapshot_crashes_witness :
    buildSnapshot [mkBar 0 100 15, mkBar 1 100 15, mkBar 2 100 15] = [] ∧
    run_live_options_trader .missing
      (.ok [mkBar 0 100 15, mkBar 1 100 15, mkBar 2 100 15]) (.error ()) =
      .crash "IndexError: index -1 is out of bounds for axis 0 with size 0" :=
  empty_snapshot_crashes .missing (.error ())
    [mkBar 0 100 15, mkBar 1 100 15, mkBar 2 100 15]
    (by simp) (by norm_num [long_ma_period])

/-! ## load_state resilience (C9) -/

/-- C9: `load_state` never fails the run — a missing or empty state file
yields the default portfolio (cash 100000, no holdings); a holdings record
missing any required key is discarded with a warning so the run starts FLAT
(never partially trusted), while a numeric cash value is kept; and a
non-numeric (or absent) cash value is replaced by the default on every path. -/
theorem load_state_resilient :
    (load_state .missing = (default_state, []) ∧
     load_state .emptyFile = (default_state, []) ∧
     default_state.cash = 100000 ∧ default_state.holdings = none) ∧
    (∀ fields hf k, dictGet fields "holdings" = some (.dict hf) →
        k ∈ required_keys → dictGet hf k = none →
        (load_state (.content (.dict fields))).1.holdings = none ∧
        (load_state (.content (.dict fields))).2 =
          ["Warning: Incomplete holdings data found. Resetting."] ∧
        (∀ q, dictGet fields "cash" = some (.num q) →
          (load_state (.content (.dict fields))).1.cash = q)) ∧
    (∀ fields, (∀ q, dictGet fields "cash" ≠ some (.num q)) →
        (load_state (.content (.dict fields))).1.cash = 100000) := by
  refine ⟨⟨rfl, rfl, rfl, rfl⟩, ?_, ?_⟩
  · intro fields hf k hhold hk hmiss
    have hAll : hasAllKeys ((dictGet fields "holdings").getD .none_) = false := by
      rw [hhold]
      show hasAllKeys (.dict hf) = false
      unfold hasAllKeys
      rw [List.all_eq_false]
      exact ⟨k, hk, by rw [hmiss]; simp⟩
    simp only [load_state, load_state_dict]
    rw [hAll, Bool.and_false, if_neg (by simp), hhold]
    simp only [Option.getD_some]
    refine ⟨by simp, by simp, fun q hq => ?_⟩
    simp [hq]
  · intro fields h
    simp only [load_state, load_state_dict]
    rcases hc : dictGet fields "cash" with _ | v
    · split <;> split <;> exact rfl
    · cases v
      case num q => exact absurd hc (h q)
      all_goals split <;> split <;> exact rfl

/-- Witness for C9: a state file whose holdings lack `credit_received` loads
as FLAT with a warning, keeping the numeric cash 55555. -/
theorem load_state_resilient_witness :
    (load_state (.content (.dict [("cash", .num 55555),
        ("holdings", .dict [("entry_date", .str "1T0"), ("expiry", .str "2T0"),
          ("sell_strike", .num 100), ("buy_strike", .num 100)])]))).1.holdings
      = none ∧
    (load_state (.content (.dict [("cash", .num 55555),
        ("holdings", .dict [("entry_date", .str "1T0"), ("expiry", .str "2T0"),
          ("sell_strike", .num 100), ("buy_strike", .num 100)])]))).2 =
      ["Warning: Incomplete holdings data found. Resetting."] ∧
    (load_state (.content (.dict [("cash", .num 55555),
        ("holdings", .dict [("entry_date", .str "1T0"), ("expiry", .str "2T0"),
          ("sell_strike", .num 100), ("buy_strike", .num 100)])]))).1.cash
      = 55555 := by
  have h := load_state_resilient.2.1
    [("cash", .num 55555),
     ("holdings", .dict [("entry_date", .str "1T0"), ("expiry", .str "2T0"),
       ("sell_strike", .num 100), ("buy_strike", .num 100)])]
    [("entry_date", .str "1T0"), ("expiry", .str "2T0"),
     ("sell_strike", .num 100), ("buy_strike", .num 100)]
    "credit_received" rfl (by simp [required_keys]) rfl
  exact ⟨h.1, h.2.1, h.2.2 55555 rfl⟩

/-! ## Entry transition (C3) -/

/-- C3: on a run that is FLAT after the exit step, with a fresh bullish
crossover at the latest bar, a qualifying expiry, both computed strikes found
in the put chain, and a strictly positive scaled credit, cash increases by
`credit − 2 × brokerage × multiplier` and a Position is created carrying the
latest bar's timestamp as entry date, the chosen expiry, and the computed
strikes and credit.  The first conjunct states this for the FLAT branch at
any post-exit cash level; the second instantiates it for a whole run that
loads a FLAT portfolio. -/
theorem entry_transition (file : StateFile) (bars : List Bar) (od : OptionsData)
    (sq bq : OptionQuote) (target : ℤ) (latest : SnapRow)
    (hlast : (buildSnapshot bars).getLast? = some latest)
    (hsig : signalFires (buildSnapshot bars) = true)
    (hloc : locUnique (buildSnapshot bars) latest.ts = some latest)
    (hmin : (validExpiries od.expiries latest.ts).min? = some target)
    (hsell : ((od.chain target).filter
        (fun q => decide (q.strike = ((sellStrikeOf latest.close : ℤ) : ℚ)))).head?
      = some sq)
    (hbuy : ((od.chain target).filter
        (fun q => decide (q.strike =
          ((buyStrikeOf (sellStrikeOf latest.close) : ℤ) : ℚ)))).head? = some bq)
    (hcredit : 0 < (sq.lastPrice - bq.lastPrice) * lot_size *
        position_multiplier latest.vix_close) :
    (∀ cash1 : ℚ, flatStep (buildSnapshot bars) latest.ts (.ok od) cash1 =
      (cash1 + ((sq.lastPrice - bq.lastPrice) * lot_size *
            position_multiplier latest.vix_close
          - 2 * brokerage_per_leg * position_multiplier latest.vix_close),
       some ⟨.timestamp latest.ts, .pydatetime ⟨target, 0⟩,
         .num ((sellStrikeOf latest.close : ℤ) : ℚ),
         .num ((buyStrikeOf (sellStrikeOf latest.close) : ℤ) : ℚ),
         .num ((sq.lastPrice - bq.lastPrice) * lot_size *
           position_multiplier latest.vix_close)⟩)) ∧
    ((load_state file).1.holdings = none →
      runCore file (.ok bars) (.ok od) = .ok
        ⟨(load_state file).1.cash +
            ((sq.lastPrice - bq.lastPrice) * lot_size *
                position_multiplier latest.vix_close
              - 2 * brokerage_per_leg * position_multiplier latest.vix_close),
          some ⟨.timestamp latest.ts, .pydatetime ⟨target, 0⟩,
            .num ((sellStrikeOf latest.close : ℤ) : ℚ),
            .num ((buyStrikeOf (sellStrikeOf latest.close) : ℤ) : ℚ),
            .num ((sq.lastPrice - bq.lastPrice) * lot_size *
              position_multiplier latest.vix_close)⟩⟩) := by
  have hflatStep : ∀ cash1 : ℚ,
      flatStep (buildSnapshot bars) latest.ts (.ok od) cash1 =
        (cash1 + ((sq.lastPrice - bq.lastPrice) * lot_size *
              position_multiplier latest.vix_close
            - 2 * brokerage_per_leg * position_multiplier latest.vix_close),
         some ⟨.timestamp latest.ts, .pydatetime ⟨target, 0⟩,
           .num ((sellStrikeOf latest.close : ℤ) : ℚ),
           .num ((buyStrikeOf (sellStrikeOf latest.close) : ℤ) : ℚ),
           .num ((sq.lastPrice - bq.lastPrice) * lot_size *
             position_multiplier latest.vix_close)⟩) := by
    intro cash1
    rw [flatStep_signal _ _ _ _ _ hsig hloc,
      entryEval_target _ _ _ _ _ hmin,
      entryWithTarget_found _ _ _ _ _ _ _ hsell hbuy,
      entryWithQuotes_pos _ _ _ _ _ _ _ _ hcredit]
  refine ⟨hflatStep, fun hflat => ?_⟩
  have hne : bars.isEmpty = false := by
    cases bars
    · rw [show buildSnapshot [] = [] from rfl] at hlast
      exact absurd hlast (by simp)
    · rfl
  rw [runCore_ok file bars (.ok od) latest hne hlast,
    runAfterSnapshot_flat _ _ _ _ hflat, hflatStep]

/-! ## Symbolic evaluation of the 81-bar scenario

The gate's kernel cannot brute-force an 81-bar pipeline, so the snapshot of
`calmBars` is computed once and for all by list reasoning. -/

lemma foldl_add_replicate (n : ℕ) (a : ℚ) :
    ∀ acc : ℚ, (List.replicate n a).foldl (· + ·) acc = acc + n * a := by
  induction n with
  | zero => intro acc; simp
  | succ m ih =>
    intro acc
    rw [List.replicate_succ, List.foldl_cons, ih]
    push_cast
    ring

lemma calmBars_closes (x : ℚ) :
    (calmBars x).map (fun b => b.close) = List.replicate 80 (100:ℚ) ++ [x] := by
  unfold calmBars
  rw [List.map_append, List.map_map]
  congr 1

lemma calmBars_length (x : ℚ) : (calmBars x).length = 81 := by
  simp [calmBars]

lemma calmBars_get79 (x : ℚ) : (calmBars x)[79]? = some (mkBar 79 100 15) := by
  unfold calmBars
  rw [List.getElem?_append_left (by simp)]
  simp [List.getElem?_range]

lemma calmBars_get80 (x : ℚ) : (calmBars x)[80]? = some (mkBar 80 x 15) := by
  unfold calmBars
  rw [List.getElem?_append_right (by simp)]
  simp

lemma smaAt_calm_s79 (x : ℚ) :
    smaAt (List.replicate 80 (100:ℚ) ++ [x]) 20 79 = some 100 := by
  unfold smaAt
  rw [if_pos (by norm_num), show (79 + 1 - 20 : ℕ) = 60 from rfl,
    List.drop_append_of_le_length (by simp), List.drop_replicate,
    List.take_append_of_le_length (by simp), List.take_replicate]
  norm_num [foldl_add_replicate]

lemma smaAt_calm_l79 (x : ℚ) :
    smaAt (List.replicate 80 (100:ℚ) ++ [x]) 80 79 = some 100 := by
  unfold smaAt
  rw [if_pos (by norm_num), show (79 + 1 - 80 : ℕ) = 0 from rfl, List.drop_zero,
    List.take_append_of_le_length (by simp), List.take_replicate]
  norm_num [foldl_add_replicate]

lemma smaAt_calm_s80 (x : ℚ) :
    smaAt (List.replicate 80 (100:ℚ) ++ [x]) 20 80 = some ((1900 + x) / 20) := by
  unfold smaAt
  rw [if_pos (by norm_num), show (80 + 1 - 20 : ℕ) = 61 from rfl,
    List.drop_append_of_le_length (by simp), List.drop_replicate,
    List.take_of_length_le (by simp), List.foldl_append, foldl_add_replicate]
  norm_num

lemma smaAt_calm_l80 (x : ℚ) :
    smaAt (List.replicate 80 (100:ℚ) ++ [x]) 80 80 = some ((7900 + x) / 80) := by
  unfold smaAt
  rw [if_pos (by norm_num), show (80 + 1 - 80 : ℕ) = 1 from rfl,
    List.drop_append_of_le_length (by simp), List.drop_replicate,
    List.take_of_length_le (by simp), List.foldl_append, foldl_add_replicate]
  norm_num

lemma filterMap_snap_eq (g : ℕ → Option SnapRow) (r1 r2 : SnapRow)
    (h79 : g 79 = some r1) (h80 : g 80 = some r2)
    (hlt : ∀ i, i < 79 → g i = none) :
    (List.range 81).filterMap g = [r1, r2] := by
  rw [show (81:ℕ) = 80 + 1 from rfl, List.range_succ,
    show (80:ℕ) = 79 + 1 from rfl, List.range_succ,
    List.filterMap_append, List.filterMap_append,
    List.filterMap_eq_nil_iff.mpr (fun i hi => hlt i (List.mem_range.mp hi))]
  simp [h79, h80]

/-- The snapshot of the 81-bar scenario: exactly the last two bars carry both
moving averages; the short average jumps with the final close while the long
one moves less, so a crossover sits exactly at the last bar whenever
`x > 100`. -/
lemma calmBars_snapshot (x : ℚ) :
    buildSnapshot (calmBars x) =
      [⟨⟨79, 0⟩, 100, 15, 100, 100⟩,
       ⟨⟨80, 0⟩, x, 15, (1900 + x) / 20, (7900 + x) / 80⟩] := by
  simp only [buildSnapshot, short_ma_period, long_ma_period]
  rw [calmBars_length, calmBars_closes]
  apply filterMap_snap_eq
  · rw [calmBars_get79, smaAt_calm_s79, smaAt_calm_l79]
    rfl
  · rw [calmBars_get80, smaAt_calm_s80, smaAt_calm_l80]
    rfl
  · intro i hi
    have h80 : smaAt (List.replicate 80 (100:ℚ) ++ [x]) 80 i = none := by
      unfold smaAt
      rw [if_neg]
      omega
    rcases hb : (calmBars x)[i]? with _ | b <;>
      rcases hs : smaAt (List.replicate 80 (100:ℚ) ++ [x]) 20 i with _ | sv <;>
      rw [h80]

/-- Witness for C3: the spec's end-to-end scenario.  Starting FLAT with cash
100000, a fresh crossover at a last close of 49000 derives strikes
48000/47500, found at last prices 120/40 with vix 15 (calm, multiplier 1.0):
credit = (120 − 40) × 15 × 1.0 = 1200 and cash becomes
100000 + 1200 − 40 = 101160. -/
theorem entry_transition_witness :
    runCore .missing (.ok (calmBars 49000)) (.ok specOpts) =
      .ok ⟨101160, some ⟨.timestamp ⟨80, 0⟩, .pydatetime ⟨81, 0⟩,
        .num 48000, .num 47500, .num 1200⟩⟩ := by
  have h := entry_transition .missing (calmBars 49000) specOpts
    ⟨48000, 120⟩ ⟨47500, 40⟩ 81
    ⟨⟨80, 0⟩, 49000, 15, (1900 + 49000) / 20, (7900 + 49000) / 80⟩
    (by rw [calmBars_snapshot]; rfl)
    (by rw [calmBars_snapshot]
        norm_num [signalFires, crossoverIdx, isCrossoverAt, prevBelow,
          List.range_succ])
    (by rw [calmBars_snapshot]; norm_num [locUnique])
    (by rw [show specOpts.expiries = [81] from rfl]; with_unfolding_all decide)
    (by rw [show (⟨⟨80, 0⟩, 49000, 15, (1900 + 49000) / 20,
          (7900 + 49000) / 80⟩ : SnapRow).close = (49000:ℚ) from rfl,
        sellStrikeOf_49000, show specOpts.chain 81 =
          [⟨48000, 120⟩, ⟨47500, 40⟩] from rfl]
        norm_num [List.filter])
    (by rw [show (⟨⟨80, 0⟩, 49000, 15, (1900 + 49000) / 20,
          (7900 + 49000) / 80⟩ : SnapRow).close = (49000:ℚ) from rfl,
        sellStrikeOf_49000, buyStrikeOf_48000, show specOpts.chain 81 =
          [⟨48000, 120⟩, ⟨47500, 40⟩] from rfl]
        norm_num [List.filter])
    (by norm_num [position_multiplier_15, lot_size])
  refine (h.2 rfl).trans ?_
  norm_num [sellStrikeOf_49000, buyStrikeOf_48000, position_multiplier_15,
    load_state, default_state, lot_size, brokerage_per_leg]

/-! ## Concrete run derivations shared by several claims -/

/-- The FLAT run of the 49000-scenario, derived from the step lemmas. -/
lemma runCore_calm49 :
    runCore .missing (.ok (calmBars 49000)) (.ok specOpts) =
      .ok ⟨101160, some ⟨.timestamp ⟨80, 0⟩, .pydatetime ⟨81, 0⟩,
        .num 48000, .num 47500, .num 1200⟩⟩ := by
  rw [runCore_ok .missing (calmBars 49000) (.ok specOpts)
      ⟨⟨80, 0⟩, 49000, 15, (1900 + 49000) / 20, (7900 + 49000) / 80⟩
      (by rfl) (by rw [calmBars_snapshot]; rfl),
    runAfterSnapshot_flat _ _ _ _ rfl,
    flatStep_signal _ _ _ _ ⟨⟨80, 0⟩, 49000, 15, (1900 + 49000) / 20, (7900 + 49000) / 80⟩
      (by rw [calmBars_snapshot]
          norm_num [signalFires, crossoverIdx, isCrossoverAt, prevBelow,
            List.range_succ])
      (by rw [calmBars_snapshot]; norm_num [locUnique]),
    entryEval_target _ _ _ _ 81
      (by rw [show specOpts.expiries = [81] from rfl]; with_unfolding_all decide),
    entryWithTarget_found _ _ _ _ _ ⟨48000, 120⟩ ⟨47500, 40⟩
      (by rw [show (⟨⟨80, 0⟩, 49000, 15, (1900 + 49000) / 20,
            (7900 + 49000) / 80⟩ : SnapRow).close = (49000:ℚ) from rfl,
          sellStrikeOf_49000, show specOpts.chain 81 =
            [⟨48000, 120⟩, ⟨47500, 40⟩] from rfl]
          norm_num [List.filter])
      (by rw [show (⟨⟨80, 0⟩, 49000, 15, (1900 + 49000) / 20,
            (7900 + 49000) / 80⟩ : SnapRow).close = (49000:ℚ) from rfl,
          sellStrikeOf_49000, buyStrikeOf_48000, show specOpts.chain 81 =
            [⟨48000, 120⟩, ⟨47500, 40⟩] from rfl]
          norm_num [List.filter]),
    entryWithQuotes_pos _ _ _ _ _ _ _ _
      (by norm_num [position_multiplier_15, lot_size])]
  norm_num [sellStrikeOf_49000, buyStrikeOf_48000, position_multiplier_15,
    load_state, default_state, lot_size, brokerage_per_leg]

/-- C4 (code bug): `save_state` converts only `pd.Timestamp` date fields to
strings, but a position created by this run's entry transition carries its
expiry as a plain `datetime.datetime` (from `strptime`), which `json.dump`
rejects.  Saving the final state of a run that just entered a position raises
`TypeError`, so the run dies at the save and the file is never written — the
spec's save/load round trip fails for exactly the states the entry transition
produces. -/
theorem save_state_datetime_bug :
    save_state ⟨101160, some ⟨.timestamp ⟨80, 0⟩, .pydatetime ⟨81, 0⟩,
        .num 48000, .num 47500, .num 1200⟩⟩ =
      .error "TypeError: Object of type datetime is not JSON serializable" ∧
    run_live_options_trader .missing (.ok (calmBars 49000)) (.ok specOpts) =
      .saveCrash ⟨101160, some ⟨.timestamp ⟨80, 0⟩, .pydatetime ⟨81, 0⟩,
          .num 48000, .num 47500, .num 1200⟩⟩
        "TypeError: Object of type datetime is not JSON serializable" := by
  constructor
  · rfl
  · unfold run_live_options_trader
    rw [runCore_calm49]
    rfl

/-! ## Expiry exit (C2) -/

/-- C2 amended: once the latest bar's date reaches the position's expiry
date, the exit fires unconditionally — the position is closed and cash gains
exactly `credit_received − 2 × brokerage` — and the run then hands the FLAT
state to the entry evaluation.  The run therefore ends FLAT with exactly that
cash change whenever no fresh crossover fires; with a fresh signal and a
valid spread it may immediately re-enter and end OPEN on a new position. -/
theorem expiry_exit_unconditional (file : StateFile) (bars : List Bar)
    (options : Except Unit OptionsData) (h : Holdings) (c : ℚ) (lastRow : SnapRow)
    (hh : (load_state file).1.holdings = some h)
    (hc : h.credit_received = .num c)
    (hlast : (buildSnapshot bars).getLast? = some lastRow)
    (he : h.expiry.dateOf ≤ dateOf lastRow.ts) :
    runCore file (.ok bars) options =
      .ok ⟨(flatStep (buildSnapshot bars) lastRow.ts options
              ((load_state file).1.cash + (c - 2 * brokerage_per_leg))).1,
           (flatStep (buildSnapshot bars) lastRow.ts options
              ((load_state file).1.cash + (c - 2 * brokerage_per_leg))).2⟩ ∧
    (signalFires (buildSnapshot bars) = false →
      runCore file (.ok bars) options =
        .ok ⟨(load_state file).1.cash + (c - 2 * brokerage_per_leg), none⟩) := by
  have hne : bars.isEmpty = false := by
    cases bars
    · rw [show buildSnapshot [] = [] from rfl] at hlast
      exact absurd hlast (by simp)
    · rfl
  have h1 := runCore_ok file bars options lastRow hne hlast
  have h2 := runAfterSnapshot_exit (load_state file).1 (buildSnapshot bars)
    lastRow options h c hh hc he
  refine ⟨h1.trans h2, fun hsig => ?_⟩
  rw [h1, h2, flatStep_noSignal _ _ _ _ hsig]

/-- Witness for C2's amended theorem: an expired position with no fresh
signal closes for `500 − 40` and the run ends FLAT at cash 100460. -/
theorem expiry_exit_unconditional_witness :
    runCore expiredStateFile (.ok (calmBars 100)) (.error ()) =
      .ok ⟨100460, none⟩ := by
  have h := expiry_exit_unconditional expiredStateFile (calmBars 100) (.error ())
    ⟨.timestamp ⟨70, 0⟩, .timestamp ⟨79, 0⟩, .num 9900, .num 9800, .num 500⟩ 500
    ⟨⟨80, 0⟩, 100, 15, (1900 + 100) / 20, (7900 + 100) / 80⟩
    (by with_unfolding_all rfl) rfl
    (by rw [calmBars_snapshot]; rfl) (by decide)
  have hs : signalFires (buildSnapshot (calmBars 100)) = false := by
    rw [calmBars_snapshot]
    norm_num [signalFires, crossoverIdx, isCrossoverAt, prevBelow, List.range_succ]
  refine (h.2 hs).trans ?_
  rw [show (load_state expiredStateFile).1.cash = 100000 by with_unfolding_all rfl]
  norm_num [brokerage_per_leg]

/-- C2 counterexample: a run that begins with an expired open position but
also sees a fresh crossover closes the old spread and immediately opens a
new one.  It ends OPEN — not FLAT — and total cash moves by the exit P&L
plus the new entry's effect (100000 → 101620), not by
`credit_received − 2 × brokerage` alone (which would give 100460). -/
theorem expiry_exit_reentry_counterexample :
    runCore expiredStateFile (.ok (calmBars 10000)) (.ok cexOpts) =
      .ok ⟨101620, some ⟨.timestamp ⟨80, 0⟩, .pydatetime ⟨81, 0⟩,
        .num 9800, .num 9700, .num 1200⟩⟩ ∧
    some (⟨.timestamp ⟨80, 0⟩, .pydatetime ⟨81, 0⟩,
        .num 9800, .num 9700, .num 1200⟩ : Holdings) ≠ none ∧
    (101620 : ℚ) ≠ (load_state expiredStateFile).1.cash +
      (500 - 2 * brokerage_per_leg) := by
  refine ⟨?_, by simp, ?_⟩
  · rw [runCore_ok expiredStateFile (calmBars 10000) (.ok cexOpts)
        ⟨⟨80, 0⟩, 10000, 15, (1900 + 10000) / 20, (7900 + 10000) / 80⟩
        (by rfl) (by rw [calmBars_snapshot]; rfl),
      runAfterSnapshot_exit _ _ _ _
        ⟨.timestamp ⟨70, 0⟩, .timestamp ⟨79, 0⟩, .num 9900, .num 9800, .num 500⟩ 500
        (by with_unfolding_all rfl) rfl (by decide),
      flatStep_signal _ _ _ _
        ⟨⟨80, 0⟩, 10000, 15, (1900 + 10000) / 20, (7900 + 10000) / 80⟩
        (by rw [calmBars_snapshot]
            norm_num [signalFires, crossoverIdx, isCrossoverAt, prevBelow,
              List.range_succ])
        (by rw [calmBars_snapshot]; norm_num [locUnique]),
      entryEval_target _ _ _ _ 81
        (by rw [show cexOpts.expiries = [81] from rfl]; with_unfolding_all decide),
      entryWithTarget_found _ _ _ _ _ ⟨9800, 120⟩ ⟨9700, 40⟩
        (by rw [show (⟨⟨80, 0⟩, 10000, 15, (1900 + 10000) / 20,
              (7900 + 10000) / 80⟩ : SnapRow).close = (10000:ℚ) from rfl,
            sellStrikeOf_10000, show cexOpts.chain 81 =
              [⟨9800, 120⟩, ⟨9700, 40⟩] from rfl]
            norm_num [List.filter])
        (by rw [show (⟨⟨80, 0⟩, 10000, 15, (1900 + 10000) / 20,
              (7900 + 10000) / 80⟩ : SnapRow).close = (10000:ℚ) from rfl,
            sellStrikeOf_10000, buyStrikeOf_9800, show cexOpts.chain 81 =
              [⟨9800, 120⟩, ⟨9700, 40⟩] from rfl]
            norm_num [List.filter]),
      entryWithQuotes_pos _ _ _ _ _ _ _ _
        (by norm_num [position_multiplier_15, lot_size]),
      show (load_state expiredStateFile).1.cash = 100000 by with_unfolding_all rfl]
    norm_num [sellStrikeOf_10000, buyStrikeOf_9800, position_multiplier_15,
      lot_size, brokerage_per_leg]
  · rw [show (load_state expiredStateFile).1.cash = 100000 by with_unfolding_all rfl]
    norm_num [brokerage_per_leg]

/-! ## Position invariants (C6) -/

lemma buyStrike_le_sellStrike (p : ℚ) (hp : 0 ≤ p) :
    buyStrikeOf (sellStrikeOf p) ≤ sellStrikeOf p := by
  unfold sellStrikeOf buyStrikeOf
  have hk0 : 0 ≤ pyRound (p * sell_strike_moneyness / 100) := by
    apply pyRound_nonneg
    have h1 : (0:ℚ) ≤ p * sell_strike_moneyness :=
      mul_nonneg hp (by norm_num [sell_strike_moneyness])
    positivity
  have harg : ((pyRound (p * sell_strike_moneyness / 100) * 100 : ℤ) : ℚ) *
      (1 - spread_width_pct) / 100 =
      (pyRound (p * sell_strike_moneyness / 100) : ℚ) * (99/100) := by
    rw [spread_width_pct]
    push_cast
    ring
  rw [harg]
  have h1 : pyRound ((pyRound (p * sell_strike_moneyness / 100) : ℚ) * (99/100)) ≤
      pyRound (p * sell_strike_moneyness / 100) := by
    apply pyRound_le_of_le
    have h2 : (0:ℚ) ≤ (pyRound (p * sell_strike_moneyness / 100) : ℚ) := by
      exact_mod_cast hk0
    nlinarith
  exact mul_le_mul_of_nonneg_right h1 (by norm_num)

/-- C6: every Position materialized by the entry transition stores numeric
strikes with `buy_strike ≤ sell_strike` (for a non-negative underlying
price) and a strictly positive credit; a non-positive computed credit is
rejected and creates no position; and an open position that has not expired
is carried forward unchanged — entry is never evaluated while a position is
held, so at no point does a second Position exist (holdings is a single
optional slot throughout). -/
theorem position_invariants :
    (∀ (today : Timestamp) (latest : SnapRow) (options : Except Unit OptionsData)
        (cash : ℚ) (h : Holdings), 0 ≤ latest.close →
      (entryEval today latest options cash).2 = some h →
      ∃ sk bk cr : ℚ, h.sell_strike = .num sk ∧ h.buy_strike = .num bk ∧
        h.credit_received = .num cr ∧ bk ≤ sk ∧ 0 < cr) ∧
    (∀ (today : Timestamp) (latest : SnapRow) (target ss bs : ℤ)
        (sq bq : OptionQuote) (cash : ℚ),
      (sq.lastPrice - bq.lastPrice) * lot_size *
          position_multiplier latest.vix_close ≤ 0 →
      entryWithQuotes today latest target ss bs sq bq cash = (cash, none)) ∧
    (∀ (file : StateFile) (bars : List Bar) (options : Except Unit OptionsData)
        (h : Holdings) (lastRow : SnapRow),
      (load_state file).1.holdings = some h →
      (buildSnapshot bars).getLast? = some lastRow →
      ¬ h.expiry.dateOf ≤ dateOf lastRow.ts →
      runCore file (.ok bars) options = .ok ⟨(load_state file).1.cash, some h⟩) := by
  refine ⟨?_, ?_, ?_⟩
  · intro today latest options cash h hp hsome
    rcases options with u | od
    · rw [show entryEval today latest (.error u) cash = (cash, none) from rfl]
        at hsome
      simp at hsome
    · rcases hmin : (validExpiries od.expiries today).min? with _ | target
      · rw [entryEval_noExpiry _ _ _ _ hmin] at hsome
        simp at hsome
      · rw [entryEval_target _ _ _ _ _ hmin] at hsome
        unfold entryWithTarget at hsome
        split at hsome
        · rename_i sq bq hsq hbq
          unfold entryWithQuotes at hsome
          split at hsome
          · rename_i hcred
            simp only [Option.some.injEq] at hsome
            refine ⟨((sellStrikeOf latest.close : ℤ) : ℚ),
              ((buyStrikeOf (sellStrikeOf latest.close) : ℤ) : ℚ),
              (sq.lastPrice - bq.lastPrice) * lot_size *
                position_multiplier latest.vix_close, ?_, ?_, ?_, ?_, hcred⟩
            · rw [← hsome]
            · rw [← hsome]
            · rw [← hsome]
            · exact_mod_cast buyStrike_le_sellStrike latest.close hp
          · simp at hsome
        · simp at hsome
  · intro today latest target ss bs sq bq cash hle
    exact entryWithQuotes_nonpos _ _ _ _ _ _ _ _ (not_lt.mpr hle)
  · intro file bars options h lastRow hh hlast he
    have hne : bars.isEmpty = false := by
      cases bars
      · rw [show buildSnapshot [] = [] from rfl] at hlast
        exact absurd hlast (by simp)
      · rfl
    rw [runCore_ok file bars options lastRow hne hlast,
      runAfterSnapshot_carry _ _ _ _ h hh he]

/-- The entry evaluation of the 49000 scenario in isolation (the moving
averages are irrelevant to the entry math). -/
lemma entryEval_calm49 :
    entryEval ⟨80, 0⟩ ⟨⟨80, 0⟩, 49000, 15, 0, 0⟩ (.ok specOpts) 100000 =
      (101160, some ⟨.timestamp ⟨80, 0⟩, .pydatetime ⟨81, 0⟩,
        .num 48000, .num 47500, .num 1200⟩) := by
  rw [entryEval_target _ _ _ _ 81
      (by rw [show specOpts.expiries = [81] from rfl]; with_unfolding_all decide),
    entryWithTarget_found _ _ _ _ _ ⟨48000, 120⟩ ⟨47500, 40⟩
      (by rw [show (⟨⟨80, 0⟩, 49000, 15, 0, 0⟩ : SnapRow).close = (49000:ℚ) from rfl,
            sellStrikeOf_49000, show specOpts.chain 81 =
              [⟨48000, 120⟩, ⟨47500, 40⟩] from rfl]
          norm_num [List.filter])
      (by rw [show (⟨⟨80, 0⟩, 49000, 15, 0, 0⟩ : SnapRow).close = (49000:ℚ) from rfl,
            sellStrikeOf_49000, buyStrikeOf_48000, show specOpts.chain 81 =
              [⟨48000, 120⟩, ⟨47500, 40⟩] from rfl]
          norm_num [List.filter]),
    entryWithQuotes_pos _ _ _ _ _ _ _ _
      (by norm_num [position_multiplier_15, lot_size])]
  norm_num [sellStrikeOf_49000, buyStrikeOf_48000, position_multiplier_15,
    lot_size, brokerage_per_leg]

/-- Witness for C6: the position entered in the 49000 scenario satisfies the
invariants (47500 ≤ 48000, credit 1200 > 0), and a run holding a live
(unexpired) position carries exactly that one position through unchanged. -/
theorem position_invariants_witness :
    (∃ sk bk cr : ℚ,
      (⟨.timestamp ⟨80, 0⟩, .pydatetime ⟨81, 0⟩, .num 48000, .num 47500,
        .num 1200⟩ : Holdings).sell_strike = .num sk ∧
      (⟨.timestamp ⟨80, 0⟩, .pydatetime ⟨81, 0⟩, .num 48000, .num 47500,
        .num 1200⟩ : Holdings).buy_strike = .num bk ∧
      (⟨.timestamp ⟨80, 0⟩, .pydatetime ⟨81, 0⟩, .num 48000, .num 47500,
        .num 1200⟩ : Holdings).credit_received = .num cr ∧ bk ≤ sk ∧ 0 < cr) ∧
    runCore openStateFile (.ok (calmBars 100)) (.error ()) =
      .ok ⟨(load_state openStateFile).1.cash,
        some ⟨.timestamp ⟨70, 0⟩, .timestamp ⟨90, 0⟩,
          .num 9900, .num 9800, .num 500⟩⟩ :=
  ⟨position_invariants.1 ⟨80, 0⟩ ⟨⟨80, 0⟩, 49000, 15, 0, 0⟩ (.ok specOpts) 100000 _
      (by norm_num) (by rw [entryEval_calm49]),
   position_invariants.2.2 openStateFile (calmBars 100) (.error ()) _
      ⟨⟨80, 0⟩, 100, 15, (1900 + 100) / 20, (7900 + 100) / 80⟩
      (by with_unfolding_all rfl) (by rw [calmBars_snapshot]; rfl) (by decide)⟩

lemma filter_range_getLast (p : ℕ → Bool) (n : ℕ) :
    ((List.range (n + 1)).filter p).getLast? =
      if p n then some n else ((List.range n).filter p).getLast? := by
  rw [List.range_succ, List.filter_append]
  rcases hp : p n with _ | _
  · simp [hp]
  · simp [hp, List.getLast?_concat]

/-- C1: for a snapshot with distinct bar timestamps and at least two bars,
the detector signals exactly when the final bar `b` has
`short_ma > long_ma` while the immediately preceding bar `a` has
`short_ma ≤ long_ma`; a crossover occurring only at an earlier bar produces
no signal (the if-and-only-if rules it out), and a snapshot with fewer than
two bars never produces a signal. -/
theorem crossover_fresh_iff (pre : List SnapRow) (a b : SnapRow)
    (hd : (pre ++ [a, b]).Pairwise (fun r s => r.ts ≠ s.ts)) :
    (signalFires (pre ++ [a, b]) = true ↔
      (b.long_ma < b.short_ma ∧ a.short_ma ≤ a.long_ma)) ∧
    (∀ r : SnapRow, signalFires [r] = false) ∧
    signalFires ([] : List SnapRow) = false := by
  refine ⟨?_, ?_, rfl⟩
  case refine_2 =>
    intro r
    have h0 : isCrossoverAt [r] 0 = false := by
      simp [isCrossoverAt, prevBelow]
    have h1 : crossoverIdx [r] = [] := by
      simp [crossoverIdx, h0]
    unfold signalFires
    rw [h1]
    rfl
  case refine_1 =>
    have hlen : (pre ++ [a, b]).length = pre.length + 2 := by simp
    have hgb : (pre ++ [a, b])[pre.length + 1]? = some b := by
      rw [List.getElem?_append_right (by simp)]
      simp
    have hga : (pre ++ [a, b])[pre.length]? = some a := by
      rw [List.getElem?_append_right (by simp)]
      simp
    have hlast : (pre ++ [a, b]).getLast? = some b := by
      rw [show pre ++ [a, b] = (pre ++ [a]) ++ [b] by simp, List.getLast?_concat]
    have hcross : isCrossoverAt (pre ++ [a, b]) (pre.length + 1) =
        (decide (b.long_ma < b.short_ma) && decide (a.short_ma ≤ a.long_ma)) := by
      simp only [isCrossoverAt, prevBelow, hga, hgb]
    unfold signalFires
    have hsplit : (crossoverIdx (pre ++ [a, b])).getLast? =
        if isCrossoverAt (pre ++ [a, b]) (pre.length + 1)
        then some (pre.length + 1)
        else ((List.range (pre.length + 1)).filter
          (fun i => isCrossoverAt (pre ++ [a, b]) i)).getLast? := by
      unfold crossoverIdx
      rw [hlen, show pre.length + 2 = (pre.length + 1) + 1 from rfl,
        filter_range_getLast]
    rcases hP : isCrossoverAt (pre ++ [a, b]) (pre.length + 1) with _ | _
    · have hRHS : ¬ (b.long_ma < b.short_ma ∧ a.short_ma ≤ a.long_ma) := by
        intro hand
        rw [hcross] at hP
        simp [hand.1, hand.2] at hP
      rw [hsplit, hP, if_neg (by simp)]
      rcases hL : ((List.range (pre.length + 1)).filter
          (fun i => isCrossoverAt (pre ++ [a, b]) i)).getLast? with _ | i
      · simp [hRHS]
      · have hmem := List.mem_of_getLast?_eq_some hL
        have hi : i < pre.length + 1 :=
          List.mem_range.mp (List.mem_filter.mp hmem).1
        have hilen : i < (pre ++ [a, b]).length := by
          rw [hlen]
          omega
        obtain ⟨r, hgi⟩ : ∃ r, (pre ++ [a, b])[i]? = some r :=
          ⟨(pre ++ [a, b])[i], List.getElem?_eq_getElem hilen⟩
        have hrb : r.ts ≠ b.ts := by
          have hp := List.pairwise_iff_getElem.mp hd i (pre.length + 1)
            hilen (by rw [hlen]; omega) (by omega)
          have h2 := List.getElem?_eq_getElem hilen
          rw [hgi] at h2
          injection h2 with h3
          have h4 := List.getElem?_eq_getElem
            (show pre.length + 1 < (pre ++ [a, b]).length by rw [hlen]; omega)
          rw [hgb] at h4
          injection h4 with h5
          rw [← h3, ← h5] at hp
          exact hp
        simp only [hgi, hlast]
        simp [hrb, hRHS]
    · have hTrue : b.long_ma < b.short_ma ∧ a.short_ma ≤ a.long_ma := by
        rw [hcross] at hP
        rw [Bool.and_eq_true] at hP
        exact ⟨of_decide_eq_true hP.1, of_decide_eq_true hP.2⟩
      rw [hsplit, hP, if_pos rfl]
      simp only [hgb, hlast]
      simp [hTrue]

/-- Witness for C1: a two-bar snapshot whose averages cross at the final bar
fires the signal, and the same final bar alone does not. -/
theorem crossover_fresh_iff_witness :
    signalFires [⟨⟨0, 0⟩, 100, 15, 1, 2⟩, ⟨⟨1, 0⟩, 200, 15, 5, 3⟩] = true ∧
    signalFires [⟨⟨1, 0⟩, 200, 15, 5, 3⟩] = false :=
  ⟨(crossover_fresh_iff [] ⟨⟨0, 0⟩, 100, 15, 1, 2⟩ ⟨⟨1, 0⟩, 200, 15, 5, 3⟩
      (by decide)).1.mpr (by norm_num),
   (crossover_fresh_iff [] ⟨⟨0, 0⟩, 100, 15, 1, 2⟩ ⟨⟨1, 0⟩, 200, 15, 5, 3⟩
      (by decide)).2.1 _⟩
